import Mathlib

/-!
Shallow embedding of the compound cloud simulation core found in
src/microbe_stage/compound_cloud_system.cpp.  Machine floats are modelled
as exact rationals, C++ ints as Lean integers, and the 2D
vector-of-vector float arrays as total functions from integer
coordinates to rationals.  Imperative loops are embedded as explicit
structural recursions that replay the loop iterations in source order.
-/

/-- A 2D density or velocity array (`std::vector<std::vector<float>>`),
indexed by cell coordinates. -/
abbrev Grid := ℤ → ℤ → ℚ

/-- Writing a single cell of a grid: `g[x][y] = v`. -/
def upd (g : Grid) (x y : ℤ) (v : ℚ) : Grid :=
  fun i j => if i = x ∧ j = y then v else g i j

lemma upd_same (g : Grid) (x y : ℤ) (v : ℚ) : upd g x y v x y = v := by
  simp [upd]

lemma upd_other (g : Grid) (x y : ℤ) (v : ℚ) (i j : ℤ) (h : ¬(i = x ∧ j = y)) :
    upd g x y v i j = g i j := by
  simp only [upd, if_neg h]

/-- The x coordinate handed to the noise source in CreateVelocityField:
`(float(x) / float(width)) * nxScale` with `nxScale = noiseScale`. -/
def sampleX (ns : ℚ) (w : ℕ) (x : ℤ) : ℚ := ((x : ℚ) / (w : ℚ)) * ns

/-- The y coordinate handed to the noise source in CreateVelocityField:
`(float(y) / float(height)) * nyScale` with
`nyScale = nxScale * float(width) / float(height)`. -/
def sampleY (ns : ℚ) (w h : ℕ) (y : ℤ) : ℚ :=
  ((y : ℚ) / (h : ℚ)) * (ns * (w : ℚ) / (h : ℚ))

/-- Per-cell body of CompoundCloudSystem::CreateVelocityField for
`xVelocity[x][y]`: with `x0, y0, y1` the scaled coordinates of cells
`x-1`, `y-1`, `y+1`, the code computes `n0 = noise(x0, y0, 0)`,
`n1 = noise(x0, y1, 0)`, `nx = n1 - n0`, and stores `nx / 2`. -/
def xVelocity (noise : ℚ → ℚ → ℚ → ℚ) (ns : ℚ) (w h : ℕ) (x y : ℤ) : ℚ :=
  let x0 := sampleX ns w (x - 1)
  let y0 := sampleY ns w h (y - 1)
  let y1 := sampleY ns w h (y + 1)
  let n0 := noise x0 y0 0
  let n1 := noise x0 y1 0
  (n1 - n0) / 2

/-- Per-cell body of CompoundCloudSystem::CreateVelocityField for
`yVelocity[x][y]`: with `x0, x1, y0` the scaled coordinates of cells
`x-1`, `x+1`, `y-1`, the code computes `n0 = noise(x0, y0, 0)`,
`n1 = noise(x1, y0, 0)`, `ny = n0 - n1`, and stores `ny / 2`. -/
def yVelocity (noise : ℚ → ℚ → ℚ → ℚ) (ns : ℚ) (w h : ℕ) (x y : ℤ) : ℚ :=
  let x0 := sampleX ns w (x - 1)
  let y0 := sampleY ns w h (y - 1)
  let x1 := sampleX ns w (x + 1)
  let n0 := noise x0 y0 0
  let n1 := noise x1 y0 0
  (n0 - n1) / 2

/-- The formula claim C1 asserts for `xVelocity`, written from the
spec's words: a central difference of the potential along x at fixed y,
`(noise(x+1, y) - noise(x-1, y)) / 2`. -/
def xVelocityClaimed (noise : ℚ → ℚ → ℚ → ℚ) (ns : ℚ) (w h : ℕ) (x y : ℤ) : ℚ :=
  (noise (sampleX ns w (x + 1)) (sampleY ns w h y) 0 -
    noise (sampleX ns w (x - 1)) (sampleY ns w h y) 0) / 2

/-- A concrete noise potential (projection onto the first coordinate)
used to separate the implemented velocity field from the claimed one. -/
def noiseFst : ℚ → ℚ → ℚ → ℚ := fun a _ _ => a

/-- Claim C1 counterexample: with the noise potential `noiseFst`,
`noiseScale = 4` and a 4x4 grid, the code stores
`xVelocity[1][1] = 0` (its two samples share the same x coordinate,
that of cell x-1 = 0), while the claimed central difference in x is 1. -/
theorem xVelocity_claim_counterexample :
    xVelocity noiseFst 4 4 4 1 1 = 0 ∧ xVelocityClaimed noiseFst 4 4 4 1 1 = 1 ∧
      xVelocity noiseFst 4 4 4 1 1 ≠ xVelocityClaimed noiseFst 4 4 4 1 1 := by
  refine ⟨?_, ?_, ?_⟩ <;>
    norm_num [xVelocity, xVelocityClaimed, noiseFst, sampleX, sampleY]

/-- Claim C1 (amended): for every cell (x,y) the generator stores
`xVelocity[x][y] = (noise(x-1, y+1) - noise(x-1, y-1)) / 2` and
`yVelocity[x][y] = (noise(x-1, y-1) - noise(x+1, y-1)) / 2`, where a
cell coordinate c is scaled into noise space as `c/width * noiseScale`
in x and `c/height * (noiseScale * width / height)` in y; no sample is
taken at fixed y or fixed x. -/
theorem velocity_field_formula (noise : ℚ → ℚ → ℚ → ℚ) (ns : ℚ) (w h : ℕ) (x y : ℤ) :
    xVelocity noise ns w h x y =
      (noise (sampleX ns w (x - 1)) (sampleY ns w h (y + 1)) 0 -
        noise (sampleX ns w (x - 1)) (sampleY ns w h (y - 1)) 0) / 2 ∧
    yVelocity noise ns w h x y =
      (noise (sampleX ns w (x - 1)) (sampleY ns w h (y - 1)) 0 -
        noise (sampleX ns w (x + 1)) (sampleY ns w h (y - 1)) 0) / 2 :=
  ⟨rfl, rfl⟩

/-- C++ `static_cast<int>` applied to a float value: truncation toward
zero. -/
def truncQ (q : ℚ) : ℤ := if q < 0 then -⌊-q⌋ else ⌊q⌋

/-- CompoundCloudComponent::takeCompound.  Returns the returned amount
together with the density grid after the call (the call mutates
`density[x][y]`).  `amountToGive = static_cast<int>(density[x][y]) * rate`
truncated to int, then `density[x][y] -= amountToGive` and a value
below 1 is clamped to 0; out of bounds the call returns -1 and leaves
the grid alone. -/
def takeCompound (w h : ℤ) (density : Grid) (x y : ℤ) (rate : ℚ) : ℤ × Grid :=
  if 0 ≤ x ∧ x < w ∧ 0 ≤ y ∧ y < h then
    let amountToGive : ℤ := truncQ ((truncQ (density x y) : ℚ) * rate)
    let d1 := upd density x y (density x y - (amountToGive : ℚ))
    let d2 := if d1 x y < 1 then upd d1 x y 0 else d1
    (amountToGive, d2)
  else (-1, density)

/-- The member function CompoundCloudComponent::amountAvailable
(lines 83-95): it computes the same `amountToGive` value as
takeCompound but contains no write to the density grid.  This member
function is never bound to the scripting interface — ThriveGame.cpp
registers the script name amountAvailable to takeCompound instead —
so it is dead code in the program. -/
def amountAvailableMember (w h : ℤ) (density : Grid) (x y : ℤ) (rate : ℚ) : ℤ × Grid :=
  if 0 ≤ x ∧ x < w ∧ 0 ≤ y ∧ y < h then
    (truncQ ((truncQ (density x y) : ℚ) * rate), density)
  else (-1, density)

/-- The external accessor `amountAvailable` as the program actually
exposes it: ThriveGame.cpp registers the script method
`int amountAvailable(int x, int y, float rate)` with
`asMETHOD(CompoundCloudComponent, takeCompound)`, so every call to the
accessor dispatches to takeCompound, return value and mutation
included. -/
def amountAvailable (w h : ℤ) (density : Grid) (x y : ℤ) (rate : ℚ) : ℤ × Grid :=
  takeCompound w h density x y rate

/-- A density grid holding 5 at cell (0,0) and 0 elsewhere. -/
def dens5 : Grid := fun i j => if i = 0 ∧ j = 0 then 5 else 0

/-- Claim C9: for every in-bounds (x,y) and rate, the external accessor
amountAvailable — which ThriveGame.cpp binds to
CompoundCloudComponent::takeCompound, leaving the member function of
the same name unused — computes the same return value as takeCompound
on the same starting grid and performs the same mutating side effect
on density[x][y]; the last conjunct spells the mutation out: the cell
afterwards holds the subtracted, below-1-clamped density. -/
theorem amountAvailable_eq_takeCompound (w h : ℤ) (d : Grid) (x y : ℤ) (rate : ℚ)
    (hin : 0 ≤ x ∧ x < w ∧ 0 ≤ y ∧ y < h) :
    (amountAvailable w h d x y rate).1 = (takeCompound w h d x y rate).1 ∧
    (amountAvailable w h d x y rate).2 = (takeCompound w h d x y rate).2 ∧
    (amountAvailable w h d x y rate).2 x y =
      (if d x y - ((truncQ ((truncQ (d x y) : ℚ) * rate) : ℤ) : ℚ) < 1 then 0
       else d x y - ((truncQ ((truncQ (d x y) : ℚ) * rate) : ℤ) : ℚ)) := by
  refine ⟨rfl, rfl, ?_⟩
  unfold amountAvailable takeCompound
  rw [if_pos hin]
  dsimp only
  simp only [upd_same]
  split_ifs with hlt
  · rw [upd_same]
  · rw [upd_same]

/-- Witness for claim C9 at grid dens5, cell (0,0), rate 1: the
accessor returns takeCompound's value and mutates density[0][0] from 5
down to the clamped 0, exactly as takeCompound does. -/
theorem amountAvailable_eq_takeCompound_witness :
    (amountAvailable 120 120 dens5 0 0 1).1 = (takeCompound 120 120 dens5 0 0 1).1 ∧
    (amountAvailable 120 120 dens5 0 0 1).2 = (takeCompound 120 120 dens5 0 0 1).2 ∧
    (amountAvailable 120 120 dens5 0 0 1).2 0 0 =
      (if dens5 0 0 - ((truncQ ((truncQ (dens5 0 0) : ℚ) * 1) : ℤ) : ℚ) < 1 then 0
       else dens5 0 0 - ((truncQ ((truncQ (dens5 0 0) : ℚ) * 1) : ℤ) : ℚ)) :=
  amountAvailable_eq_takeCompound 120 120 dens5 0 0 1 (by norm_num)

/-- Claim C10: takeCompound out of bounds returns -1 and leaves the
grid unchanged; in bounds, with a nonnegative starting cell, the cell
afterwards is either 0 or at least 1 (never negative, never strictly
between 0 and 1), and the returned amount is
`trunc(trunc(density[x][y]) * rate)`. -/
theorem takeCompound_spec (w h : ℤ) (d : Grid) (x y : ℤ) (rate : ℚ) :
    (¬(0 ≤ x ∧ x < w ∧ 0 ≤ y ∧ y < h) →
      (takeCompound w h d x y rate).1 = -1 ∧ (takeCompound w h d x y rate).2 = d) ∧
    ((0 ≤ x ∧ x < w ∧ 0 ≤ y ∧ y < h) → 0 ≤ d x y →
      ((takeCompound w h d x y rate).2 x y = 0 ∨
        1 ≤ (takeCompound w h d x y rate).2 x y) ∧
      (takeCompound w h d x y rate).1 = truncQ ((truncQ (d x y) : ℚ) * rate)) := by
  constructor
  · intro hout
    simp [takeCompound, hout]
  · intro hin _
    unfold takeCompound
    rw [if_pos hin]
    refine ⟨?_, rfl⟩
    by_cases hlt : d x y - ((truncQ ((truncQ (d x y) : ℚ) * rate) : ℤ) : ℚ) < 1
    · left
      dsimp only
      simp only [upd_same]
      rw [if_pos hlt, upd_same]
    · right
      dsimp only
      simp only [upd_same]
      rw [if_neg hlt, upd_same]
      linarith

/-- Witness for claim C10 at the concrete grid `dens5`, cell (0,0),
rate 1: the hypotheses of takeCompound_spec hold and the cell is
clamped to 0 with returned amount `trunc(trunc(5) * 1)`. -/
theorem takeCompound_spec_witness :
    ((takeCompound 120 120 dens5 0 0 1).2 0 0 = 0 ∨
      1 ≤ (takeCompound 120 120 dens5 0 0 1).2 0 0) ∧
    (takeCompound 120 120 dens5 0 0 1).1 = truncQ ((truncQ (dens5 0 0) : ℚ) * 1) :=
  (takeCompound_spec 120 120 dens5 0 0 1).2 (by norm_num) (by norm_num [dens5])

/-- The four sequential offset updates inside the rebase branch of
CompoundCloudSystem::Run: each axis condition is retested against the
possibly already-updated offset, exactly as the four successive ifs run.
Thresholds and increments use C++ integer arithmetic
(`width/3*gridSize/2` and `width/3*gridSize`). -/
def rebaseInner (w h g : ℤ) (px py : ℚ) (oX oY : ℤ) : ℤ × ℤ :=
  let oX1 := if px > ((oX + w / 3 * g / 2 : ℤ) : ℚ) then oX + w / 3 * g else oX
  let oY1 := if py > ((oY + h / 3 * g / 2 : ℤ) : ℚ) then oY + h / 3 * g else oY
  let oX2 := if px < ((oX1 - w / 3 * g / 2 : ℤ) : ℚ) then oX1 - w / 3 * g else oX1
  let oY2 := if py < ((oY1 - h / 3 * g / 2 : ℤ) : ℚ) then oY1 - h / 3 * g else oY1
  (oX2, oY2)

/-- The grid rebase check of CompoundCloudSystem::Run: if the observer
has left the central third of the window, the offsets are shifted by
the four inner ifs; otherwise nothing happens. -/
def rebaseStep (w h g : ℤ) (px py : ℚ) (oX oY : ℤ) : ℤ × ℤ :=
  if px > ((oX + w / 3 * g / 2 : ℤ) : ℚ) ∨ py > ((oY + h / 3 * g / 2 : ℤ) : ℚ) ∨
      px < ((oX - w / 3 * g / 2 : ℤ) : ℚ) ∨ py < ((oY - h / 3 * g / 2 : ℤ) : ℚ) then
    rebaseInner w h g px py oX oY
  else (oX, oY)

/-- Claim C6: at the system constants width = height = 120, gridSize = 2
(constructor defaults), the rebase step changes the offsets exactly when
the observer leaves the central third of the window (threshold
width/3*gridSize/2 = 40); whenever px > offsetX + 40 — no matter how
far beyond — a single call increments offsetX by exactly
width/3*gridSize = 80 and not more; and each axis independently moves
by at most one increment per call. -/
theorem rebase_trigger_single_increment (px py : ℚ) (oX oY : ℤ) :
    (rebaseStep 120 120 2 px py oX oY ≠ (oX, oY) ↔
      (px > (oX : ℚ) + 40 ∨ py > (oY : ℚ) + 40 ∨
        px < (oX : ℚ) - 40 ∨ py < (oY : ℚ) - 40)) ∧
    (px > (oX : ℚ) + 40 → (rebaseStep 120 120 2 px py oX oY).1 = oX + 80) ∧
    ((rebaseStep 120 120 2 px py oX oY).1 = oX - 80 ∨
      (rebaseStep 120 120 2 px py oX oY).1 = oX ∨
      (rebaseStep 120 120 2 px py oX oY).1 = oX + 80) ∧
    ((rebaseStep 120 120 2 px py oX oY).2 = oY - 80 ∨
      (rebaseStep 120 120 2 px py oX oY).2 = oY ∨
      (rebaseStep 120 120 2 px py oX oY).2 = oY + 80) := by
  unfold rebaseStep rebaseInner
  dsimp only
  have h40 : ((120 : ℤ) / 3 * 2 / 2) = 40 := by decide
  have h80 : ((120 : ℤ) / 3 * 2) = 80 := by decide
  rw [h40, h80]
  push_cast
  refine ⟨?_, ?_, ?_, ?_⟩ <;>
    split_ifs <;>
      simp_all [Prod.ext_iff] <;>
        linarith

/-- Witness for claim C6: an observer at px = 1000000 (arbitrarily far
in +x) with the window at the origin; one rebase call moves offsetX to
exactly 0 + 80. -/
theorem rebase_trigger_single_increment_witness :
    (rebaseStep 120 120 2 1000000 0 0 0).1 = 0 + 80 :=
  (rebase_trigger_single_increment 1000000 0 0 0).2.1 (by norm_num)

/-- One y iteration of the horizontal window shift loop for the
moved-right branch of Run (the window offsetX grew): the three
sequential assignments `density[x][y] = density[x+height/3][y]`,
`density[x+height/3][y] = density[x+height*2/3][y]`,
`density[x+height*2/3][y] = 0` (with `h3 = height/3` and
`h23 = height*2/3`). -/
def shiftRightCell (h3 h23 x y : ℤ) (g : Grid) : Grid :=
  let g1 := upd g x y (g (x + h3) y)
  let g2 := upd g1 (x + h3) y (g1 (x + h23) y)
  upd g2 (x + h23) y 0

/-- The inner y loop of the moved-right shift for column x, iterations
y = 0 .. n-1 in ascending order. -/
def shiftRightCol (h3 h23 x : ℤ) (g : Grid) : ℕ → Grid
  | 0 => g
  | n + 1 => shiftRightCell h3 h23 x (n : ℤ) (shiftRightCol h3 h23 x g n)

/-- The outer x loop of the moved-right shift, columns 0 .. m-1 in
ascending order, each running the inner y loop over ny rows
(the source bounds are m = width/3 and ny = height). -/
def shiftRightAll (h3 h23 : ℤ) (g : Grid) : ℕ → ℕ → Grid
  | 0, _ => g
  | m + 1, ny => shiftRightCol h3 h23 (m : ℤ) (shiftRightAll h3 h23 g m ny) ny

/-- One y iteration of the moved-left branch of Run (the window offsetX
shrank): `density[x+height*2/3][y] = density[x+height/3][y]`,
`density[x+height/3][y] = density[x][y]`, `density[x][y] = 0`. -/
def shiftLeftCell (h3 h23 x y : ℤ) (g : Grid) : Grid :=
  let g1 := upd g (x + h23) y (g (x + h3) y)
  let g2 := upd g1 (x + h3) y (g1 x y)
  upd g2 x y 0

/-- The inner y loop of the moved-left shift for column x. -/
def shiftLeftCol (h3 h23 x : ℤ) (g : Grid) : ℕ → Grid
  | 0 => g
  | n + 1 => shiftLeftCell h3 h23 x (n : ℤ) (shiftLeftCol h3 h23 x g n)

/-- The outer x loop of the moved-left shift. -/
def shiftLeftAll (h3 h23 : ℤ) (g : Grid) : ℕ → ℕ → Grid
  | 0, _ => g
  | m + 1, ny => shiftLeftCol h3 h23 (m : ℤ) (shiftLeftAll h3 h23 g m ny) ny

/-- One iteration of the moved-up branch of Run:
`density[x][y] = density[x][y+height/3]`,
`density[x][y+height/3] = density[x][y+height*2/3]`,
`density[x][y+height*2/3] = 0`. -/
def shiftUpCell (h3 h23 x y : ℤ) (g : Grid) : Grid :=
  let g1 := upd g x y (g x (y + h3))
  let g2 := upd g1 x (y + h3) (g1 x (y + h23))
  upd g2 x (y + h23) 0

/-- The inner y loop of the moved-up shift for column x (the source
bound is height/3 rows). -/
def shiftUpCol (h3 h23 x : ℤ) (g : Grid) : ℕ → Grid
  | 0 => g
  | n + 1 => shiftUpCell h3 h23 x (n : ℤ) (shiftUpCol h3 h23 x g n)

/-- The outer x loop of the moved-up shift over all width columns. -/
def shiftUpAll (h3 h23 : ℤ) (g : Grid) : ℕ → ℕ → Grid
  | 0, _ => g
  | m + 1, ny => shiftUpCol h3 h23 (m : ℤ) (shiftUpAll h3 h23 g m ny) ny

/-- One iteration of the moved-down branch of Run:
`density[x][y+height*2/3] = density[x][y+height/3]`,
`density[x][y+height/3] = density[x][y]`, `density[x][y] = 0`. -/
def shiftDownCell (h3 h23 x y : ℤ) (g : Grid) : Grid :=
  let g1 := upd g x (y + h23) (g x (y + h3))
  let g2 := upd g1 x (y + h3) (g1 x y)
  upd g2 x y 0

/-- The inner y loop of the moved-down shift for column x. -/
def shiftDownCol (h3 h23 x : ℤ) (g : Grid) : ℕ → Grid
  | 0 => g
  | n + 1 => shiftDownCell h3 h23 x (n : ℤ) (shiftDownCol h3 h23 x g n)

/-- The outer x loop of the moved-down shift over all width columns. -/
def shiftDownAll (h3 h23 : ℤ) (g : Grid) : ℕ → ℕ → Grid
  | 0, _ => g
  | m + 1, ny => shiftDownCol h3 h23 (m : ℤ) (shiftDownAll h3 h23 g m ny) ny

lemma shiftRightCell_apply (h3 h23 x y i j : ℤ) (g : Grid)
    (h3pos : 0 < h3) (h23eq : h23 = 2 * h3) :
    shiftRightCell h3 h23 x y g i j =
      if i = x + h23 ∧ j = y then 0
      else if i = x + h3 ∧ j = y then g (x + h23) y
      else if i = x ∧ j = y then g (x + h3) y
      else g i j := by
  unfold shiftRightCell
  simp only [upd]
  split_ifs <;> first | rfl | omega

lemma shiftLeftCell_apply (h3 h23 x y i j : ℤ) (g : Grid)
    (h3pos : 0 < h3) (h23eq : h23 = 2 * h3) :
    shiftLeftCell h3 h23 x y g i j =
      if i = x ∧ j = y then 0
      else if i = x + h3 ∧ j = y then g x y
      else if i = x + h23 ∧ j = y then g (x + h3) y
      else g i j := by
  unfold shiftLeftCell
  simp only [upd]
  split_ifs <;> first | rfl | omega

lemma shiftRightCol_apply (h3 h23 x : ℤ) (g : Grid) (n : ℕ) (i j : ℤ)
    (h3pos : 0 < h3) (h23eq : h23 = 2 * h3) :
    shiftRightCol h3 h23 x g n i j =
      if 0 ≤ j ∧ j < (n : ℤ) then
        (if i = x + h23 then 0
         else if i = x + h3 then g (x + h23) j
         else if i = x then g (x + h3) j
         else g i j)
      else g i j := by
  induction n generalizing i j with
  | zero =>
    simp only [shiftRightCol]
    split_ifs <;> first | rfl | omega
  | succ n ih =>
    simp only [shiftRightCol]
    rw [shiftRightCell_apply _ _ _ _ _ _ _ h3pos h23eq]
    by_cases hj : j = (n : ℤ)
    · subst hj
      simp only [ih, eq_self_iff_true, and_true]
      split_ifs <;> first | rfl | omega
    · simp only [ih, eq_self_iff_true, and_true]
      split_ifs <;> first | rfl | omega

lemma shiftLeftCol_apply (h3 h23 x : ℤ) (g : Grid) (n : ℕ) (i j : ℤ)
    (h3pos : 0 < h3) (h23eq : h23 = 2 * h3) :
    shiftLeftCol h3 h23 x g n i j =
      if 0 ≤ j ∧ j < (n : ℤ) then
        (if i = x then 0
         else if i = x + h3 then g x j
         else if i = x + h23 then g (x + h3) j
         else g i j)
      else g i j := by
  induction n generalizing i j with
  | zero =>
    simp only [shiftLeftCol]
    split_ifs <;> first | rfl | omega
  | succ n ih =>
    simp only [shiftLeftCol]
    rw [shiftLeftCell_apply _ _ _ _ _ _ _ h3pos h23eq]
    by_cases hj : j = (n : ℤ)
    · subst hj
      simp only [ih, eq_self_iff_true, and_true]
      split_ifs <;> first | rfl | omega
    · simp only [ih, eq_self_iff_true, and_true]
      split_ifs <;> first | rfl | omega

set_option maxHeartbeats 1000000 in
lemma shiftRightAll_apply (h3 h23 : ℤ) (g : Grid) (m ny : ℕ) (i j : ℤ)
    (h3pos : 0 < h3) (h23eq : h23 = 2 * h3) (hm : (m : ℤ) ≤ h3) :
    shiftRightAll h3 h23 g m ny i j =
      if 0 ≤ j ∧ j < (ny : ℤ) then
        (if h23 ≤ i ∧ i < h23 + (m : ℤ) then 0
         else if h3 ≤ i ∧ i < h3 + (m : ℤ) then g (i + h3) j
         else if 0 ≤ i ∧ i < (m : ℤ) then g (i + h3) j
         else g i j)
      else g i j := by
  revert hm
  induction m generalizing i j with
  | zero =>
    intro _
    simp only [shiftRightAll]
    split_ifs <;> first | rfl | omega
  | succ m ih =>
    intro hm
    have hm1 : (m : ℤ) ≤ h3 := by push_cast at hm; omega
    simp only [shiftRightAll]
    rw [shiftRightCol_apply _ _ _ _ _ _ _ h3pos h23eq]
    rw [ih ((m : ℤ) + h23) j hm1, ih ((m : ℤ) + h3) j hm1, ih i j hm1]
    split_ifs <;> first | rfl | omega | (apply congrFun; apply congrArg; omega)

set_option maxHeartbeats 1000000 in
lemma shiftLeftAll_apply (h3 h23 : ℤ) (g : Grid) (m ny : ℕ) (i j : ℤ)
    (h3pos : 0 < h3) (h23eq : h23 = 2 * h3) (hm : (m : ℤ) ≤ h3) :
    shiftLeftAll h3 h23 g m ny i j =
      if 0 ≤ j ∧ j < (ny : ℤ) then
        (if 0 ≤ i ∧ i < (m : ℤ) then 0
         else if h3 ≤ i ∧ i < h3 + (m : ℤ) then g (i - h3) j
         else if h23 ≤ i ∧ i < h23 + (m : ℤ) then g (i - h3) j
         else g i j)
      else g i j := by
  revert hm
  induction m generalizing i j with
  | zero =>
    intro _
    simp only [shiftLeftAll]
    split_ifs <;> first | rfl | omega
  | succ m ih =>
    intro hm
    have hm1 : (m : ℤ) ≤ h3 := by push_cast at hm; omega
    simp only [shiftLeftAll]
    rw [shiftLeftCol_apply _ _ _ _ _ _ _ h3pos h23eq]
    rw [ih ((m : ℤ) + h3) j hm1, ih (m : ℤ) j hm1, ih i j hm1]
    split_ifs <;> first | rfl | omega | (apply congrFun; apply congrArg; omega)

/-- Claim C7 (amended): the horizontal shift that slides content toward
higher x is the moved-left branch of Run (taken when the grid's cached
offsetX exceeds the window offsetX, i.e. the window shifted in -x); in
that branch, mass at a cell (x, y) with 0 ≤ x < width/3 is relocated
to (x + height/3, y) — the shift increment in the horizontal branches
is height/3, not width/3 — and the revealed third x < width/3 is
zero-filled.  (In the moved-right branch, by contrast, content slides
toward lower x: cell (x, y) receives the old (x + height/3, y).) -/
theorem shiftLeft_relocates_content (h3 h23 : ℤ) (m ny : ℕ) (g : Grid) (x y : ℤ)
    (h3pos : 0 < h3) (h23eq : h23 = 2 * h3) (hm : (m : ℤ) ≤ h3)
    (hx0 : 0 ≤ x) (hx : x < (m : ℤ)) (hy0 : 0 ≤ y) (hy : y < (ny : ℤ)) :
    shiftLeftAll h3 h23 g m ny (x + h3) y = g x y ∧
      shiftLeftAll h3 h23 g m ny x y = 0 := by
  constructor
  · rw [shiftLeftAll_apply _ _ _ _ _ _ _ h3pos h23eq hm]
    split_ifs <;> first | rfl | omega | (apply congrFun; apply congrArg; omega)
  · rw [shiftLeftAll_apply _ _ _ _ _ _ _ h3pos h23eq hm]
    split_ifs <;> first | rfl | omega

/-- A density grid holding 5 at interior cell (1,1) and 0 elsewhere. -/
def shiftG : Grid := fun i j => if i = 1 ∧ j = 1 then 5 else 0

/-- Claim C7 counterexample: on a 6x6 grid (width/3 = height/3 = 2,
height*2/3 = 4) with density 5 at interior cell (1,1), the moved-right
branch (window shifted in +x) does not relocate that mass to
(1 + 2, 1): after the shift, cell (3,1) holds 0 (the old (5,1)), not
the claimed 5. -/
theorem shiftRight_claim_counterexample :
    shiftRightAll 2 4 shiftG 2 6 3 1 = 0 ∧ shiftG 1 1 = 5 := by
  constructor
  · rw [shiftRightAll_apply 2 4 shiftG 2 6 3 1 (by norm_num) (by norm_num) (by norm_num)]
    norm_num [shiftG]
  · norm_num [shiftG]

/-- Witness for claim C7 at a 6x6 grid with density 5 at (1,1): the
moved-left branch relocates it to (3,1) and zeroes (1,1). -/
theorem shiftLeft_relocates_content_witness :
    shiftLeftAll 2 4 shiftG 2 6 (1 + 2) 1 = shiftG 1 1 ∧
      shiftLeftAll 2 4 shiftG 2 6 1 1 = 0 :=
  shiftLeft_relocates_content 2 4 2 6 shiftG 1 1 (by norm_num) (by norm_num)
    (by norm_num) (by norm_num) (by norm_num) (by norm_num) (by norm_num)

/-- The per-grid offset resynchronization step of Run: when the grid's
cached offset differs from the window offset, exactly one of the four
directional content shifts runs (none for a diagonal lag), and the
cached offset is then set to the window offset; when the offsets agree
the grid is untouched. -/
def syncGrid (w h : ℕ) (oX oY cX cY : ℤ) (g : Grid) : ℤ × ℤ × Grid :=
  if cX ≠ oX ∨ cY ≠ oY then
    if cX = oX ∧ cY < oY then
      (oX, oY, shiftUpAll ((h / 3 : ℕ) : ℤ) ((h * 2 / 3 : ℕ) : ℤ) g w (h / 3))
    else if cX < oX ∧ cY = oY then
      (oX, oY, shiftRightAll ((h / 3 : ℕ) : ℤ) ((h * 2 / 3 : ℕ) : ℤ) g (w / 3) h)
    else if oX < cX ∧ cY = oY then
      (oX, oY, shiftLeftAll ((h / 3 : ℕ) : ℤ) ((h * 2 / 3 : ℕ) : ℤ) g (w / 3) h)
    else if cX = oX ∧ oY < cY then
      (oX, oY, shiftDownAll ((h / 3 : ℕ) : ℤ) ((h * 2 / 3 : ℕ) : ℤ) g w (h / 3))
    else (oX, oY, g)
  else (cX, cY, g)

/-- Claim C8: if the observer stays within the central third of the
window (no trigger condition holds, thresholds at the system constants
width = height = 120, gridSize = 2), any number of iterations of the
rebase check leaves offsetX and offsetY unchanged, and the per-grid
sync step leaves a grid whose cached offset equals the window offset
entirely untouched. -/
theorem rebase_idempotent (px py : ℚ) (oX oY : ℤ) (w h : ℕ) (g : Grid)
    (h1 : px ≤ (oX : ℚ) + 40) (h2 : py ≤ (oY : ℚ) + 40)
    (h3 : (oX : ℚ) - 40 ≤ px) (h4 : (oY : ℚ) - 40 ≤ py) :
    (∀ n : ℕ,
      (fun s : ℤ × ℤ => rebaseStep 120 120 2 px py s.1 s.2)^[n] (oX, oY) = (oX, oY)) ∧
      syncGrid w h oX oY oX oY g = (oX, oY, g) := by
  constructor
  · intro n
    apply Function.iterate_fixed
    show rebaseStep 120 120 2 px py oX oY = (oX, oY)
    have hcond : ¬(px > ((oX + 120 / 3 * 2 / 2 : ℤ) : ℚ) ∨
        py > ((oY + 120 / 3 * 2 / 2 : ℤ) : ℚ) ∨
        px < ((oX - 120 / 3 * 2 / 2 : ℤ) : ℚ) ∨
        py < ((oY - 120 / 3 * 2 / 2 : ℤ) : ℚ)) := by
      have e40 : ((120 : ℤ) / 3 * 2 / 2) = 40 := by decide
      rw [e40]
      push_cast
      intro hc
      rcases hc with hc | hc | hc | hc <;> linarith
    unfold rebaseStep
    rw [if_neg hcond]
  · unfold syncGrid
    rw [if_neg (by simp)]

/-- Witness for claim C8: observer at the window center (0,0); five
iterations of the rebase check keep the offsets at (0,0) and the sync
step leaves the grid dens5 untouched. -/
theorem rebase_idempotent_witness :
    ((fun s : ℤ × ℤ => rebaseStep 120 120 2 0 0 s.1 s.2)^[5] (0, 0) = (0, 0)) ∧
      syncGrid 120 120 0 0 0 0 dens5 = (0, 0, dens5) :=
  ⟨(rebase_idempotent 0 0 0 0 120 120 dens5 (by norm_num) (by norm_num)
      (by norm_num) (by norm_num)).1 5,
    (rebase_idempotent 0 0 0 0 120 120 dens5 (by norm_num) (by norm_num)
      (by norm_num) (by norm_num)).2⟩

/-- One cell update of CompoundCloudSystem::diffuse, writing the scratch
buffer in place:
`oldDens[x][y] = (density[x][y] + a*(oldDens[x-1][y] + oldDens[x+1][y]
+ oldDens[x][y-1] + oldDens[x][y+1])) / (1 + 4*a)`. -/
def diffCell (a : ℚ) (d : Grid) (x y : ℤ) (g : Grid) : Grid :=
  upd g x y
    ((d x y + a * (g (x - 1) y + g (x + 1) y + g x (y - 1) + g x (y + 1))) /
      (1 + 4 * a))

/-- The inner y loop of diffuse for column x: iterations y = 1 .. n in
ascending order over the scratch buffer. -/
def diffRow (a : ℚ) (d : Grid) (x : ℤ) (g : Grid) : ℕ → Grid
  | 0 => g
  | n + 1 => diffCell a d x ((n : ℤ) + 1) (diffRow a d x g n)

/-- The outer x loop of diffuse: columns x = 1 .. m in ascending order,
each running the inner y loop over ny interior rows. -/
def diffAll (a : ℚ) (d : Grid) (g : Grid) : ℕ → ℕ → Grid
  | 0, _ => g
  | m + 1, ny => diffRow a d ((m : ℤ) + 1) (diffAll a d g m ny) ny

/-- CompoundCloudSystem::diffuse: the dt parameter is reassigned to 1 on
entry, so a = 1 * diffRate; the loops run x = 1 .. width-2 and
y = 1 .. height-2 over the scratch buffer oldDens, reading density. -/
def diffuse (diffRate : ℚ) (oldDens density : Grid) (w h : ℕ) (dt : ℤ) : Grid :=
  diffAll (1 * diffRate) density oldDens (w - 2) (h - 2)

lemma diffRow_frame (a : ℚ) (d : Grid) (x : ℤ) (g : Grid) (n : ℕ) (i j : ℤ)
    (hij : i ≠ x ∨ j < 1 ∨ (n : ℤ) < j) :
    diffRow a d x g n i j = g i j := by
  induction n with
  | zero => rfl
  | succ n ih =>
    simp only [diffRow, diffCell]
    rw [upd_other _ _ _ _ _ _ (show ¬(i = x ∧ j = (n : ℤ) + 1) by omega)]
    exact ih (by omega)

lemma diffRow_value (a : ℚ) (d : Grid) (x : ℤ) (g : Grid) (n : ℕ) (y : ℤ)
    (hy1 : 1 ≤ y) (hy2 : y ≤ (n : ℤ)) :
    diffRow a d x g n x y =
      (d x y + a * (g (x - 1) y + g (x + 1) y +
        diffRow a d x g n x (y - 1) + g x (y + 1))) / (1 + 4 * a) := by
  induction n with
  | zero => exact absurd hy2 (by omega)
  | succ n ih =>
    by_cases hyn : y = (n : ℤ) + 1
    · subst hyn
      simp only [diffRow, diffCell]
      rw [upd_same,
        upd_other (diffRow a d x g n) x ((n : ℤ) + 1) _ x ((n : ℤ) + 1 - 1) (by omega)]
      rw [diffRow_frame a d x g n (x - 1) ((n : ℤ) + 1) (by omega),
        diffRow_frame a d x g n (x + 1) ((n : ℤ) + 1) (by omega),
        diffRow_frame a d x g n x ((n : ℤ) + 1 + 1) (by omega)]
    · have hy2n : y ≤ (n : ℤ) := by omega
      simp only [diffRow, diffCell]
      rw [upd_other (diffRow a d x g n) x ((n : ℤ) + 1) _ x y (by omega),
        upd_other (diffRow a d x g n) x ((n : ℤ) + 1) _ x (y - 1) (by omega)]
      exact ih hy2n

lemma diffAll_frame (a : ℚ) (d : Grid) (g : Grid) (m ny : ℕ) (i j : ℤ)
    (hij : i < 1 ∨ (m : ℤ) < i ∨ j < 1 ∨ (ny : ℤ) < j) :
    diffAll a d g m ny i j = g i j := by
  induction m with
  | zero => rfl
  | succ m ih =>
    simp only [diffAll]
    rw [diffRow_frame a d ((m : ℤ) + 1) (diffAll a d g m ny) ny i j (by omega)]
    exact ih (by omega)

lemma diffAll_value (a : ℚ) (d : Grid) (g : Grid) (m ny : ℕ) (x y : ℤ)
    (hx1 : 1 ≤ x) (hx2 : x ≤ (m : ℤ)) (hy1 : 1 ≤ y) (hy2 : y ≤ (ny : ℤ)) :
    diffAll a d g m ny x y =
      (d x y + a * (diffAll a d g m ny (x - 1) y + g (x + 1) y +
        diffAll a d g m ny x (y - 1) + g x (y + 1))) / (1 + 4 * a) := by
  induction m with
  | zero => exact absurd hx2 (by omega)
  | succ m ih =>
    by_cases hxm : x = (m : ℤ) + 1
    · subst hxm
      simp only [diffAll]
      rw [diffRow_value a d ((m : ℤ) + 1) (diffAll a d g m ny) ny y hy1 hy2]
      rw [diffRow_frame a d ((m : ℤ) + 1) (diffAll a d g m ny) ny ((m : ℤ) + 1 - 1) y
          (by omega)]
      rw [diffAll_frame a d g m ny ((m : ℤ) + 1 + 1) y (by omega),
        diffAll_frame a d g m ny ((m : ℤ) + 1) (y + 1) (by omega)]
    · have hx2m : x ≤ (m : ℤ) := by omega
      simp only [diffAll]
      rw [diffRow_frame a d ((m : ℤ) + 1) (diffAll a d g m ny) ny x y (by omega),
        diffRow_frame a d ((m : ℤ) + 1) (diffAll a d g m ny) ny (x - 1) y (by omega),
        diffRow_frame a d ((m : ℤ) + 1) (diffAll a d g m ny) ny x (y - 1) (by omega)]
      exact ih hx2m

lemma diffuse_interior (rate : ℚ) (oldDens density : Grid) (w h : ℕ) (dt : ℤ)
    (x y : ℤ) (hx1 : 1 ≤ x) (hx2 : x ≤ (w : ℤ) - 2)
    (hy1 : 1 ≤ y) (hy2 : y ≤ (h : ℤ) - 2) :
    diffuse rate oldDens density w h dt x y =
      (density x y + (1 * rate) *
        (diffuse rate oldDens density w h dt (x - 1) y + oldDens (x + 1) y +
          diffuse rate oldDens density w h dt x (y - 1) + oldDens x (y + 1))) /
        (1 + 4 * (1 * rate)) := by
  unfold diffuse
  exact diffAll_value _ _ _ _ _ _ _ hx1 (by omega) hy1 (by omega)

lemma diffuse_frame (rate : ℚ) (oldDens density : Grid) (w h : ℕ) (dt : ℤ) (i j : ℤ)
    (hij : i < 1 ∨ (w : ℤ) - 2 < i ∨ j < 1 ∨ (h : ℤ) - 2 < j) :
    diffuse rate oldDens density w h dt i j = oldDens i j := by
  unfold diffuse
  exact diffAll_frame _ _ _ _ _ _ _ (by omega)

/-- Claim C3: the diffusion step writes every interior cell
(1 ≤ x ≤ width-2, 1 ≤ y ≤ height-2) in a single in-place sweep with x
outer and y inner both ascending, so that the final scratch buffer
satisfies oldDens[x][y] = (density[x][y] + a*(final[x-1][y] +
initial[x+1][y] + final[x][y-1] + initial[x][y+1])) / (1 + 4*a) with
a = dt*rate and dt forced to 1: the x-1 and y-1 neighbors are read
already updated (their final values), the x+1 and y+1 neighbors are
still the initial buffer contents; border cells are never written. -/
theorem diffuse_sweep_spec (rate : ℚ) (oldDens density : Grid) (w h : ℕ) (dt : ℤ)
    (x y : ℤ) (hx1 : 1 ≤ x) (hx2 : x ≤ (w : ℤ) - 2)
    (hy1 : 1 ≤ y) (hy2 : y ≤ (h : ℤ) - 2) :
    diffuse rate oldDens density w h dt x y =
      (density x y + (1 * rate) *
        (diffuse rate oldDens density w h dt (x - 1) y + oldDens (x + 1) y +
          diffuse rate oldDens density w h dt x (y - 1) + oldDens x (y + 1))) /
        (1 + 4 * (1 * rate)) ∧
    (∀ i j : ℤ, i = 0 ∨ i = (w : ℤ) - 1 ∨ j = 0 ∨ j = (h : ℤ) - 1 →
      diffuse rate oldDens density w h dt i j = oldDens i j) :=
  ⟨diffuse_interior rate oldDens density w h dt x y hx1 hx2 hy1 hy2,
    fun i j hij => diffuse_frame rate oldDens density w h dt i j (by omega)⟩

/-- The all-zero grid (fresh scratch buffer). -/
def zeroGrid : Grid := fun _ _ => 0

/-- The 6x6 scenario's initial density: 100 at cell (3,3), 0 elsewhere. -/
def dens6 : Grid := fun i j => if i = 3 ∧ j = 3 then 100 else 0

/-- Witness for claim C3 on the 6x6 scenario at interior cell (1,1). -/
theorem diffuse_sweep_spec_witness :
    diffuse (1 / 100) zeroGrid dens6 6 6 1 1 1 =
      (dens6 1 1 + (1 * (1 / 100)) *
        (diffuse (1 / 100) zeroGrid dens6 6 6 1 (1 - 1) 1 + zeroGrid (1 + 1) 1 +
          diffuse (1 / 100) zeroGrid dens6 6 6 1 1 (1 - 1) + zeroGrid 1 (1 + 1))) /
        (1 + 4 * (1 * (1 / 100))) ∧
    (∀ i j : ℤ, i = 0 ∨ i = ((6 : ℕ) : ℤ) - 1 ∨ j = 0 ∨ j = ((6 : ℕ) : ℤ) - 1 →
      diffuse (1 / 100) zeroGrid dens6 6 6 1 i j = zeroGrid i j) :=
  diffuse_sweep_spec (1 / 100) zeroGrid dens6 6 6 1 1 1 (by norm_num) (by norm_num)
    (by norm_num) (by norm_num)

lemma diffuse6_values :
    diffuse (1 / 100) zeroGrid dens6 6 6 1 3 3 = 1250 / 13 ∧
    diffuse (1 / 100) zeroGrid dens6 6 6 1 2 3 = 0 ∧
    diffuse (1 / 100) zeroGrid dens6 6 6 1 3 2 = 0 ∧
    diffuse (1 / 100) zeroGrid dens6 6 6 1 4 3 = 625 / 676 ∧
    diffuse (1 / 100) zeroGrid dens6 6 6 1 3 4 = 625 / 676 := by
  set F := diffuse (1 / 100) zeroGrid dens6 6 6 1 with hF
  have b : ∀ i j : ℤ, i < 1 ∨ 4 < i ∨ j < 1 ∨ 4 < j → F i j = 0 := by
    intro i j hij
    rw [hF, diffuse_frame (1 / 100) zeroGrid dens6 6 6 1 i j (by omega)]
    rfl
  have step : ∀ x y : ℤ, 1 ≤ x → x ≤ 4 → 1 ≤ y → y ≤ 4 → ¬(x = 3 ∧ y = 3) →
      F (x - 1) y = 0 → F x (y - 1) = 0 → F x y = 0 := by
    intro x y hx1 hx2 hy1 hy2 hne hL hU
    rw [hF, diffuse_interior (1 / 100) zeroGrid dens6 6 6 1 x y hx1 (by omega) hy1
      (by omega)]
    rw [← hF, hL, hU]
    simp [dens6, zeroGrid, hne]
  have z11 : F 1 1 = 0 := step 1 1 (by norm_num) (by norm_num) (by norm_num)
    (by norm_num) (by norm_num) (b 0 1 (by norm_num)) (b 1 0 (by norm_num))
  have z12 : F 1 2 = 0 := step 1 2 (by norm_num) (by norm_num) (by norm_num)
    (by norm_num) (by norm_num) (b 0 2 (by norm_num)) z11
  have z13 : F 1 3 = 0 := step 1 3 (by norm_num) (by norm_num) (by norm_num)
    (by norm_num) (by norm_num) (b 0 3 (by norm_num)) z12
  have z14 : F 1 4 = 0 := step 1 4 (by norm_num) (by norm_num) (by norm_num)
    (by norm_num) (by norm_num) (b 0 4 (by norm_num)) z13
  have z21 : F 2 1 = 0 := step 2 1 (by norm_num) (by norm_num) (by norm_num)
    (by norm_num) (by norm_num) z11 (b 2 0 (by norm_num))
  have z22 : F 2 2 = 0 := step 2 2 (by norm_num) (by norm_num) (by norm_num)
    (by norm_num) (by norm_num) z12 z21
  have z23 : F 2 3 = 0 := step 2 3 (by norm_num) (by norm_num) (by norm_num)
    (by norm_num) (by norm_num) z13 z22
  have z24 : F 2 4 = 0 := step 2 4 (by norm_num) (by norm_num) (by norm_num)
    (by norm_num) (by norm_num) z14 z23
  have z31 : F 3 1 = 0 := step 3 1 (by norm_num) (by norm_num) (by norm_num)
    (by norm_num) (by norm_num) z21 (b 3 0 (by norm_num))
  have z32 : F 3 2 = 0 := step 3 2 (by norm_num) (by norm_num) (by norm_num)
    (by norm_num) (by norm_num) z22 z31
  have z41 : F 4 1 = 0 := step 4 1 (by norm_num) (by norm_num) (by norm_num)
    (by norm_num) (by norm_num) z31 (b 4 0 (by norm_num))
  have z42 : F 4 2 = 0 := step 4 2 (by norm_num) (by norm_num) (by norm_num)
    (by norm_num) (by norm_num) z32 z41
  have h33 : F 3 3 = 1250 / 13 := by
    rw [hF, diffuse_interior (1 / 100) zeroGrid dens6 6 6 1 3 3 (by norm_num)
      (by norm_num) (by norm_num) (by norm_num)]
    rw [← hF]
    norm_num [dens6, zeroGrid]
    rw [z23, z32]
    norm_num
  have h43 : F 4 3 = 625 / 676 := by
    rw [hF, diffuse_interior (1 / 100) zeroGrid dens6 6 6 1 4 3 (by norm_num)
      (by norm_num) (by norm_num) (by norm_num)]
    rw [← hF]
    norm_num [dens6, zeroGrid]
    rw [h33, z42]
    norm_num
  have h34 : F 3 4 = 625 / 676 := by
    rw [hF, diffuse_interior (1 / 100) zeroGrid dens6 6 6 1 3 4 (by norm_num)
      (by norm_num) (by norm_num) (by norm_num)]
    rw [← hF]
    norm_num [dens6, zeroGrid]
    rw [z24, h33]
    norm_num
  exact ⟨h33, z23, z32, h43, h34⟩

/-- Claim C2 counterexample: in the 6x6 scenario (gridSize 1,
density[3][3] = 100, zero scratch buffer, rate 0.01), the diffusion
sweep leaves oldDensity[4][3] = 625/676 (about 0.9246), not 0 as
claimed: cell (4,3) is processed after (3,3) and reads its already
updated value. -/
theorem diffuse6_claim_counterexample :
    diffuse (1 / 100) zeroGrid dens6 6 6 1 4 3 = 625 / 676 ∧
      diffuse (1 / 100) zeroGrid dens6 6 6 1 4 3 ≠ 0 := by
  refine ⟨diffuse6_values.2.2.2.1, ?_⟩
  rw [diffuse6_values.2.2.2.1]
  norm_num

/-- Claim C2 (amended): in the 6x6 end-to-end scenario one diffusion
step produces oldDensity[3][3] = 100/1.04 = 1250/13 (about 96.15);
the cells preceding (3,3) in the sweep keep
oldDensity[2][3] = oldDensity[3][2] = 0, while the cells following it
read its updated value and get
oldDensity[4][3] = oldDensity[3][4] = (0.01 * 1250/13)/1.04 = 625/676
(about 0.9246), not 0. -/
theorem diffuse6_scenario :
    diffuse (1 / 100) zeroGrid dens6 6 6 1 3 3 = 1250 / 13 ∧
    diffuse (1 / 100) zeroGrid dens6 6 6 1 2 3 = 0 ∧
    diffuse (1 / 100) zeroGrid dens6 6 6 1 3 2 = 0 ∧
    diffuse (1 / 100) zeroGrid dens6 6 6 1 4 3 = 625 / 676 ∧
    diffuse (1 / 100) zeroGrid dens6 6 6 1 3 4 = 625 / 676 :=
  diffuse6_values

/-- The sequential lower-then-upper clamp applied to an advection
target coordinate: `if (v < lo) v = lo; if (v > hi) v = hi;`. -/
def clampLH (lo hi q : ℚ) : ℚ :=
  let q1 := if q < lo then lo else q
  if q1 > hi then hi else q1

/-- Adding to one cell of a grid: `g[x][y] += v`. -/
def bump (g : Grid) (x y : ℤ) (v : ℚ) : Grid := upd g x y (g x y + v)

/-- The zero-fill loop at the head of advect:
`density[x][y] = 0` for all 0 ≤ x < width, 0 ≤ y < height. -/
def zeroFill (density : Grid) (w h : ℕ) : Grid :=
  fun i j => if 0 ≤ i ∧ i < (w : ℤ) ∧ 0 ≤ j ∧ j < (h : ℤ) then 0 else density i j

/-- One interior-cell iteration of CompoundCloudSystem::advect: cells
with oldDens[x][y] ≤ 1 contribute nothing; otherwise the target
(dx, dy) = (x + dt*vx, y + dt*vy) with dt = 1 is clamped to
[0.5, width-1.5] x [0.5, height-1.5], split into the surrounding cells
x0 = static_cast<int>(dx), x1 = x0+1 (same for y), and
oldDens[x][y] times the bilinear weights is accumulated into density
at (x0,y0), (x0,y1), (x1,y0), (x1,y1) in that order. -/
def advectCell (w h : ℕ) (vX vY old : Grid) (x y : ℤ) (g : Grid) : Grid :=
  if 1 < old x y then
    let dx := clampLH (1 / 2) ((w : ℚ) - 3 / 2) ((x : ℚ) + 1 * vX x y)
    let dy := clampLH (1 / 2) ((h : ℚ) - 3 / 2) ((y : ℚ) + 1 * vY x y)
    let x0 := truncQ dx
    let x1 := x0 + 1
    let y0 := truncQ dy
    let y1 := y0 + 1
    let s1 := dx - (x0 : ℚ)
    let s0 := 1 - s1
    let t1 := dy - (y0 : ℚ)
    let t0 := 1 - t1
    bump (bump (bump (bump g x0 y0 (old x y * s0 * t0)) x0 y1 (old x y * s0 * t1))
      x1 y0 (old x y * s1 * t0)) x1 y1 (old x y * s1 * t1)
  else g

/-- The inner y loop of advect for column x, interior rows
y = 1 .. n in ascending order. -/
def advRow (w h : ℕ) (vX vY old : Grid) (x : ℤ) (g : Grid) : ℕ → Grid
  | 0 => g
  | n + 1 => advectCell w h vX vY old x ((n : ℤ) + 1) (advRow w h vX vY old x g n)

/-- The outer x loop of advect, interior columns x = 1 .. m ascending. -/
def advAll (w h : ℕ) (vX vY old : Grid) (g : Grid) : ℕ → ℕ → Grid
  | 0, _ => g
  | m + 1, ny => advRow w h vX vY old ((m : ℤ) + 1) (advAll w h vX vY old g m ny) ny

/-- CompoundCloudSystem::advect: dt is reassigned to 1 on entry; the
density grid is zero-filled, then every interior cell of oldDens above
the threshold is accumulated into the four cells around its clamped
forward-advected position. -/
def advect (oldDens density vX vY : Grid) (w h : ℕ) (dt : ℤ) : Grid :=
  advAll w h vX vY oldDens (zeroFill density w h) (w - 2) (h - 2)

/-- The closed form stated by claim C4 for the deposit of source cell
(x,y) at destination cell (i,j), written from the spec's words:
oldDens[x][y] times the bilinear weight of (i,j) among the four cells
around the clamped target, and 0 for sub-threshold sources. -/
def contrib (w h : ℕ) (vX vY old : Grid) (x y i j : ℤ) : ℚ :=
  if 1 < old x y then
    let dx := clampLH (1 / 2) ((w : ℚ) - 3 / 2) ((x : ℚ) + 1 * vX x y)
    let dy := clampLH (1 / 2) ((h : ℚ) - 3 / 2) ((y : ℚ) + 1 * vY x y)
    let x0 := truncQ dx
    let x1 := x0 + 1
    let y0 := truncQ dy
    let y1 := y0 + 1
    let s1 := dx - (x0 : ℚ)
    let s0 := 1 - s1
    let t1 := dy - (y0 : ℚ)
    let t0 := 1 - t1
    (if i = x0 ∧ j = y0 then old x y * s0 * t0 else 0) +
      (if i = x0 ∧ j = y1 then old x y * s0 * t1 else 0) +
      (if i = x1 ∧ j = y0 then old x y * s1 * t0 else 0) +
      (if i = x1 ∧ j = y1 then old x y * s1 * t1 else 0)
  else 0

/-- The advection output claim C4 describes, written from the spec's
words: zero-filled density plus, for every interior source cell, the
sum of its bilinear contributions (summed, never overwritten). -/
def advectSpec (oldDens density vX vY : Grid) (w h : ℕ) : Grid :=
  fun i j =>
    zeroFill density w h i j +
      ((List.range (w - 2)).map fun s : ℕ =>
        ((List.range (h - 2)).map fun t : ℕ =>
          contrib w h vX vY oldDens ((s : ℤ) + 1) ((t : ℤ) + 1) i j).sum).sum

lemma bump_apply (g : Grid) (x y : ℤ) (v : ℚ) (i j : ℤ) :
    bump g x y v i j = if i = x ∧ j = y then g i j + v else g i j := by
  unfold bump upd
  split_ifs with hc
  · rcases hc with ⟨rfl, rfl⟩
    rfl
  · rfl

lemma advectCell_apply (w h : ℕ) (vX vY old : Grid) (x y : ℤ) (g : Grid) (i j : ℤ) :
    advectCell w h vX vY old x y g i j = g i j + contrib w h vX vY old x y i j := by
  unfold advectCell contrib
  by_cases hth : 1 < old x y
  · simp only [if_pos hth, bump_apply]
    split_ifs <;> ring
  · simp only [if_neg hth, add_zero]

lemma advRow_sum (w h : ℕ) (vX vY old : Grid) (x : ℤ) (g : Grid) (n : ℕ) (i j : ℤ) :
    advRow w h vX vY old x g n i j =
      g i j + ((List.range n).map fun t : ℕ =>
        contrib w h vX vY old x ((t : ℤ) + 1) i j).sum := by
  induction n with
  | zero => simp [advRow]
  | succ n ih =>
    simp only [advRow, advectCell_apply, ih, List.range_succ, List.map_append,
      List.sum_append, List.map_cons, List.sum_cons, List.map_nil, List.sum_nil]
    ring

lemma advAll_sum (w h : ℕ) (vX vY old : Grid) (g : Grid) (m ny : ℕ) (i j : ℤ) :
    advAll w h vX vY old g m ny i j =
      g i j + ((List.range m).map fun s : ℕ =>
        ((List.range ny).map fun t : ℕ =>
          contrib w h vX vY old ((s : ℤ) + 1) ((t : ℤ) + 1) i j).sum).sum := by
  induction m with
  | zero => simp [advAll]
  | succ m ih =>
    simp only [advAll, advRow_sum, ih, List.range_succ, List.map_append,
      List.sum_append, List.map_cons, List.sum_cons, List.map_nil, List.sum_nil]
    ring

/-- Claim C4: the advection step first zeroes every in-window cell of
density, then for every interior source cell with oldDens[x][y] > 1
(sub-threshold cells contribute nothing) computes the destination by
adding (not subtracting) the velocity, clamps it to
[0.5, width-1.5] x [0.5, height-1.5], and accumulates (sums across
sources, never overwrites) oldDens[x][y] times the bilinear weights
into the four surrounding cells: the imperative loop equals the
per-cell sum-of-contributions closed form written from the spec. -/
theorem advect_eq_advectSpec (oldDens density vX vY : Grid) (w h : ℕ) (dt : ℤ)
    (i j : ℤ) :
    advect oldDens density vX vY w h dt i j = advectSpec oldDens density vX vY w h i j := by
  unfold advect advectSpec
  exact advAll_sum w h vX vY oldDens (zeroFill density w h) (w - 2) (h - 2) i j

lemma truncQ_clamp_bounds (w : ℕ) (hw : 2 ≤ w) (q : ℚ) :
    0 ≤ truncQ (clampLH (1 / 2) ((w : ℚ) - 3 / 2) q) ∧
      truncQ (clampLH (1 / 2) ((w : ℚ) - 3 / 2) q) ≤ (w : ℤ) - 2 := by
  have hw2 : (2 : ℚ) ≤ (w : ℚ) := by exact_mod_cast hw
  have hlo : (1 / 2 : ℚ) ≤ clampLH (1 / 2) ((w : ℚ) - 3 / 2) q := by
    unfold clampLH
    dsimp only
    split_ifs <;> linarith
  have hhi : clampLH (1 / 2) ((w : ℚ) - 3 / 2) q ≤ (w : ℚ) - 3 / 2 := by
    unfold clampLH
    dsimp only
    split_ifs <;> linarith
  set c := clampLH (1 / 2) ((w : ℚ) - 3 / 2) q with hc
  have hnneg : ¬(c < 0) := by push_neg; linarith
  unfold truncQ
  rw [if_neg hnneg]
  constructor
  · exact Int.floor_nonneg.mpr (by linarith)
  · have hfl : ((⌊c⌋ : ℤ) : ℚ) ≤ c := Int.floor_le c
    have hlt : ((⌊c⌋ : ℤ) : ℚ) < (w : ℚ) - 1 := by linarith
    have hltz : ⌊c⌋ < (w : ℤ) - 1 := by exact_mod_cast hlt
    omega

lemma contrib_outside (w h : ℕ) (hw : 2 ≤ w) (hh : 2 ≤ h) (vX vY old : Grid)
    (x y i j : ℤ) (hij : i < 0 ∨ (w : ℤ) ≤ i ∨ j < 0 ∨ (h : ℤ) ≤ j) :
    contrib w h vX vY old x y i j = 0 := by
  obtain ⟨hx0, hx0b⟩ := truncQ_clamp_bounds w hw ((x : ℚ) + 1 * vX x y)
  obtain ⟨hy0, hy0b⟩ := truncQ_clamp_bounds h hh ((y : ℚ) + 1 * vY x y)
  unfold contrib
  split_ifs with hth
  · dsimp only
    have c1 : ¬(i = truncQ (clampLH (1 / 2) ((w : ℚ) - 3 / 2) ((x : ℚ) + 1 * vX x y)) ∧
        j = truncQ (clampLH (1 / 2) ((h : ℚ) - 3 / 2) ((y : ℚ) + 1 * vY x y))) := by omega
    have c2 : ¬(i = truncQ (clampLH (1 / 2) ((w : ℚ) - 3 / 2) ((x : ℚ) + 1 * vX x y)) ∧
        j = truncQ (clampLH (1 / 2) ((h : ℚ) - 3 / 2) ((y : ℚ) + 1 * vY x y)) + 1) := by
      omega
    have c3 : ¬(i = truncQ (clampLH (1 / 2) ((w : ℚ) - 3 / 2) ((x : ℚ) + 1 * vX x y)) + 1 ∧
        j = truncQ (clampLH (1 / 2) ((h : ℚ) - 3 / 2) ((y : ℚ) + 1 * vY x y))) := by omega
    have c4 : ¬(i = truncQ (clampLH (1 / 2) ((w : ℚ) - 3 / 2) ((x : ℚ) + 1 * vX x y)) + 1 ∧
        j = truncQ (clampLH (1 / 2) ((h : ℚ) - 3 / 2) ((y : ℚ) + 1 * vY x y)) + 1) := by
      omega
    rw [if_neg c1, if_neg c2, if_neg c3, if_neg c4]
    norm_num
  · rfl

lemma advAll_outside (w h : ℕ) (hw : 2 ≤ w) (hh : 2 ≤ h) (vX vY old : Grid)
    (g : Grid) (m ny : ℕ) (i j : ℤ)
    (hij : i < 0 ∨ (w : ℤ) ≤ i ∨ j < 0 ∨ (h : ℤ) ≤ j) :
    advAll w h vX vY old g m ny i j = g i j := by
  rw [advAll_sum]
  have hz : ((List.range m).map fun s : ℕ =>
      ((List.range ny).map fun t : ℕ =>
        contrib w h vX vY old ((s : ℤ) + 1) ((t : ℤ) + 1) i j).sum).sum = 0 := by
    apply List.sum_eq_zero
    intro z hz
    simp only [List.mem_map] at hz
    obtain ⟨s, _, rfl⟩ := hz
    apply List.sum_eq_zero
    intro z2 hz2
    simp only [List.mem_map] at hz2
    obtain ⟨t, _, rfl⟩ := hz2
    exact contrib_outside w h hw hh vX vY old _ _ i j hij
  rw [hz, add_zero]

/-- Claim C5: for every input grid and velocity field of arbitrary
magnitude, the advection destination indices stay in bounds: after the
clamp of the target coordinate to [0.5, width-1.5], the truncated cell
index x0 lies in [0, width-2] (so x1 = x0+1 lies in [1, width-1], same
for y), and the advect step never writes any cell outside
[0, width-1] x [0, height-1]: outside the window the density array is
left exactly as it was. -/
theorem advect_bounds_safety (oldDens density vX vY : Grid) (w h : ℕ) (dt : ℤ)
    (hw : 2 ≤ w) (hh : 2 ≤ h) :
    (∀ x y : ℤ,
      0 ≤ truncQ (clampLH (1 / 2) ((w : ℚ) - 3 / 2) ((x : ℚ) + 1 * vX x y)) ∧
      truncQ (clampLH (1 / 2) ((w : ℚ) - 3 / 2) ((x : ℚ) + 1 * vX x y)) ≤ (w : ℤ) - 2 ∧
      0 ≤ truncQ (clampLH (1 / 2) ((h : ℚ) - 3 / 2) ((y : ℚ) + 1 * vY x y)) ∧
      truncQ (clampLH (1 / 2) ((h : ℚ) - 3 / 2) ((y : ℚ) + 1 * vY x y)) ≤ (h : ℤ) - 2) ∧
    (∀ i j : ℤ, i < 0 ∨ (w : ℤ) ≤ i ∨ j < 0 ∨ (h : ℤ) ≤ j →
      advect oldDens density vX vY w h dt i j = density i j) := by
  constructor
  · intro x y
    obtain ⟨h1, h2⟩ := truncQ_clamp_bounds w hw ((x : ℚ) + 1 * vX x y)
    obtain ⟨h3, h4⟩ := truncQ_clamp_bounds h hh ((y : ℚ) + 1 * vY x y)
    exact ⟨h1, h2, h3, h4⟩
  · intro i j hij
    unfold advect
    rw [advAll_outside w h hw hh vX vY oldDens _ _ _ i j hij]
    unfold zeroFill
    rw [if_neg (by omega)]

/-- A velocity field of extreme magnitude, one million in both axes. -/
def velBig : Grid := fun _ _ => 1000000

/-- Witness for claim C5 on a 6x6 grid with the extreme velocity field
velBig: destination indices stay within [0,4] and the cell (-1, 0)
outside the window keeps its original density. -/
theorem advect_bounds_safety_witness :
    (0 ≤ truncQ (clampLH (1 / 2) (((6 : ℕ) : ℚ) - 3 / 2) (((3 : ℤ) : ℚ) + 1 * velBig 3 3)) ∧
      truncQ (clampLH (1 / 2) (((6 : ℕ) : ℚ) - 3 / 2) (((3 : ℤ) : ℚ) + 1 * velBig 3 3)) ≤
        ((6 : ℕ) : ℤ) - 2 ∧
      0 ≤ truncQ (clampLH (1 / 2) (((6 : ℕ) : ℚ) - 3 / 2) (((3 : ℤ) : ℚ) + 1 * velBig 3 3)) ∧
      truncQ (clampLH (1 / 2) (((6 : ℕ) : ℚ) - 3 / 2) (((3 : ℤ) : ℚ) + 1 * velBig 3 3)) ≤
        ((6 : ℕ) : ℤ) - 2) ∧
    advect dens6 dens6 velBig velBig 6 6 1 (-1) 0 = dens6 (-1) 0 :=
  ⟨(advect_bounds_safety dens6 dens6 velBig velBig 6 6 1 (by norm_num) (by norm_num)).1 3 3,
    (advect_bounds_safety dens6 dens6 velBig velBig 6 6 1 (by norm_num) (by norm_num)).2
      (-1) 0 (by norm_num)⟩
